import Mathlib

/-!
Verification development for the Cache-Augmented Generation (CAG) core of
KnowledgePersistence-AI.

The Python sources `cag_cache_warmer.py`, `cag_context_manager.py`,
`cag_engine.py` and `cag_mcp_integrated.py` are shallowly embedded below.
Python floats are modelled by `ℚ` (every constant appearing in the scoring
and metric arithmetic is a decimal literal, so the computations are exact);
timestamps are modelled by an integer day number (`datetime.timedelta.days`
granularity, which is all the code ever inspects); Python dicts keyed by
strings are modelled by association lists with insert-or-overwrite update,
preserving insertion order exactly as CPython dicts do; a raised exception
is modelled by `Except.error`.
-/

set_option autoImplicit false

/-- A knowledge item as consumed by the scorers and classifiers
(`knowledge_items` row / MCP result dict).  `created_at` is an absolute day
number; `importance_score` is the 0-100 integer; `access_count` as in the
source.  Fields the scorers never read (`id`, `title`, `content`,
`category`) are carried to state non-interference properties. -/
structure KnowledgeItem where
  id : String
  title : String
  content : String
  category : String
  knowledge_type : String
  created_at : Int
  access_count : Nat
  importance_score : Nat
deriving DecidableEq

/-- The Python builtin `min` on two rationals (kernel-reducible form). -/
def pymin (a b : ℚ) : ℚ := if a ≤ b then a else b

/-- The Python builtin `max` on two rationals (kernel-reducible form). -/
def pymax (a b : ℚ) : ℚ := if b ≤ a then a else b

/-- `strategic_value` table of `CacheWarmingEngine.calculate_cache_priority`
(cag_cache_warmer.py lines 50-57); unknown types default to 0.5. -/
def strategicValue (t : String) : ℚ :=
  if t = "technical_discovery" then 0.9
  else if t = "procedural" then 0.8
  else if t = "experiential" then 0.7
  else if t = "contextual" then 0.6
  else if t = "factual" then 0.5
  else if t = "relational" then 0.4
  else 0.5

/-- `type_weights` table shared by both scorers (cag_cache_warmer.py lines
67-75, cag_mcp_integrated.py lines 393-401); unknown types default to 0.5. -/
def typeWeight (t : String) : ℚ :=
  if t = "procedural" then 0.9
  else if t = "technical_discovery" then 0.8
  else if t = "experiential" then 0.7
  else if t = "contextual" then 0.6
  else if t = "factual" then 0.5
  else if t = "relational" then 0.4
  else 0.5

/-- Mode-A priority scorer, `CacheWarmingEngine.calculate_cache_priority`
(cag_cache_warmer.py lines 35-78).  `now` is the current day number read
from `datetime.now()` inside the function: the clock is an input of the
computation, made explicit by the embedding. -/
def CacheWarmingEngine.calculate_cache_priority (now : Int) (item : KnowledgeItem) : ℚ :=
  let days_old : Int := now - item.created_at
  let recency : ℚ := pymax 0 (1 - (days_old : ℚ) / 30)
  let frequency : ℚ := pymin 1 ((item.access_count : ℚ) / 10)
  let priority_score : ℚ :=
    recency * 0.3 + strategicValue item.knowledge_type * 0.25
      + frequency * 0.25 + typeWeight item.knowledge_type * 0.2
  pymin 1 priority_score

/-- Mode-B priority scorer, `CAGCacheWarmerMCP.calculate_cache_priority`
(cag_mcp_integrated.py lines 383-413).  As in Mode A, `now` is the day
number read from the ambient clock. -/
def CAGCacheWarmerMCP.calculate_cache_priority (now : Int) (item : KnowledgeItem) : ℚ :=
  let importance : ℚ := (item.importance_score : ℚ) / 100
  let days_old : Int := now - item.created_at
  let recency : ℚ := pymax 0 (1 - (days_old : ℚ) / 30)
  let priority_score : ℚ :=
    importance * 0.4 + typeWeight item.knowledge_type * 0.3 + recency * 0.3
  pymin 1 priority_score

/-- Mode-A layer classifier, `CacheWarmingEngine.determine_cache_layer`
(cag_cache_warmer.py lines 114-125). -/
def CacheWarmingEngine.determine_cache_layer (item : KnowledgeItem) : String :=
  if item.knowledge_type = "procedural" ∨ item.knowledge_type = "technical_discovery" then
    "domain"
  else if item.knowledge_type = "experiential" then "experience"
  else if item.knowledge_type = "contextual" then "session"
  else "dynamic"

/-- Mode-B layer classifier, `CAGCacheWarmerMCP.determine_cache_layer`
(cag_mcp_integrated.py lines 415-429): same rules with the
high-importance escalation rule first. -/
def CAGCacheWarmerMCP.determine_cache_layer (item : KnowledgeItem) : String :=
  if item.importance_score > 80 then "strategic"
  else if item.knowledge_type = "procedural" ∨ item.knowledge_type = "technical_discovery" then
    "domain"
  else if item.knowledge_type = "experiential" then "experience"
  else if item.knowledge_type = "contextual" then "session"
  else "dynamic"

/-- The concrete item of spec scenario 2: type `procedural`,
`importance_score` 40, `created_at` now (day 0), `access_count` 5. -/
def scenarioItem : KnowledgeItem :=
  ⟨"item-1", "title", "content", "cat", "procedural", 0, 5, 40⟩

/-- Bool test that the first list is a prefix of the second
(structural-recursion form, used to model Python `str.startswith`). -/
def charsPrefix : List Char → List Char → Bool
  | [], _ => true
  | _ :: _, [] => false
  | a :: as, b :: bs => a == b && charsPrefix as bs

/-- Python `s.startswith(pre)`, on the character lists of the strings. -/
def pyStartsWith (s pre : String) : Bool := charsPrefix pre.data s.data

/-- Helper for `pyWordCount`: the flag records whether the scan is
currently inside a word. -/
def pyWordCountAux : List Char → Bool → Nat
  | [], _ => 0
  | c :: cs, inWord =>
    if c.isWhitespace then pyWordCountAux cs false
    else (if inWord then 0 else 1) + pyWordCountAux cs true

/-- Python `len(text.split())`: the number of maximal runs of
non-whitespace characters. -/
def pyWordCount (s : String) : Nat := pyWordCountAux s.data false

/-- A value of the warm cache dict (cag_cache_warmer.py lines 256-262).
`loaded_at` is the day number of the wall-clock insertion time.  The
MCP variant additionally stores a constant provenance string
(`source`), which carries no information and is omitted. -/
structure CacheEntry where
  content : String
  title : String
  knowledge_type : String
  priority : ℚ
  loaded_at : Int
deriving DecidableEq

/-- The warm cache: a Python dict from string keys to entries, modelled
as an association list in insertion order with distinct keys. -/
abbrev WarmCache := List (String × CacheEntry)

/-- Python dict assignment `d[k] = v`: overwrite in place if the key is
present, append otherwise (CPython preserves insertion order). -/
def dictInsert (cache : WarmCache) (k : String) (v : CacheEntry) : WarmCache :=
  if cache.any (fun p => p.1 == k) then
    cache.map (fun p => if p.1 == k then (k, v) else p)
  else cache ++ [(k, v)]

/-- A `cache_item` dict as built by the warming phases before preloading
(e.g. cag_cache_warmer.py lines 100-109): the payload of the candidate
together with its computed `cache_priority` and `cache_layer`. -/
structure PreloadItem where
  id : String
  knowledge_type : String
  title : String
  content : String
  cache_priority : ℚ
  cache_layer : String
deriving DecidableEq

/-- Default `cache_priority_threshold` (cag_cache_warmer.py line 21,
cag_mcp_integrated.py line 380). -/
def cache_priority_threshold : ℚ := 0.3

/-- `CacheWarmingEngine.preload_to_context` (cag_cache_warmer.py lines
251-262); `CAGCacheWarmerMCP.preload_to_context` (cag_mcp_integrated.py
lines 512-524) is identical on the modelled fields.  Inserts each item
whose `cache_priority` is at least `threshold` under the key
`"<cache_layer>:<id>"`; `now` is the wall-clock `loaded_at` stamp. -/
def CacheWarmingEngine.preload_to_context (threshold : ℚ) (now : Int)
    (cache : WarmCache) (knowledge_items : List PreloadItem) : WarmCache :=
  knowledge_items.foldl (fun c item =>
    if item.cache_priority ≥ threshold then
      dictInsert c (item.cache_layer ++ ":" ++ item.id)
        ⟨item.content, item.title, item.knowledge_type, item.cache_priority, now⟩
    else c) cache

/-- A sequence of preload operations against an initially empty warm
cache.  Every write to the cache in the source goes through
`preload_to_context` (the four warming phases of
`warm_cache_for_session` and `CAGEngine.warm_domain_cache` all call it),
so an arbitrary operation sequence is an arbitrary list of item
batches. -/
def CacheWarmingEngine.runPreloads (threshold : ℚ) (now : Int)
    (ops : List (List PreloadItem)) : WarmCache :=
  ops.foldl (fun c items => CacheWarmingEngine.preload_to_context threshold now c items) []

/-- `CacheWarmingEngine.get_cached_knowledge` (cag_cache_warmer.py lines
320-334) with a layer argument: filter the cache to keys starting with
`"<layer>:"`, sort by priority descending (Python `sorted` is stable),
return the first `limit` entries (`limit` defaults to 10 at the call
site).  Python returns each entry as a dict that merges the key with
the entry; the key-entry pair carries the same data. -/
def CacheWarmingEngine.get_cached_knowledge (cache : WarmCache) (layer : String)
    (limit : Nat) : List (String × CacheEntry) :=
  let filtered := cache.filter (fun p => pyStartsWith p.1 (layer ++ ":"))
  let sorted_items := filtered.mergeSort (fun a b => decide (b.2.priority ≤ a.2.priority))
  sorted_items.take limit

/-- The `cache_stats` record returned by `warm_cache_for_session`
(cag_cache_warmer.py lines 275-280).  `warming_time` is wall-clock time
and is outside the model; the constant `mcp_integrated` flag of the MCP variant
flag is omitted. -/
structure CacheStats where
  phases_completed : Nat
  items_loaded : Nat
  cache_size : Nat
deriving DecidableEq

/-- The outcome of the four phase fetches of
`CacheWarmingEngine.warm_cache_for_session` (the awaited calls at
cag_cache_warmer.py lines 284, 292, 300, 308: `load_core_knowledge`,
`predict_session_knowledge`, `pattern_predict_knowledge`,
`load_strategic_insights`).  Each is a list of scored candidate items,
or an exception raised by the database layer. -/
structure WarmPhaseFetches where
  phase1 : Except String (List PreloadItem)
  phase2 : Except String (List PreloadItem)
  phase3 : Except String (List PreloadItem)
  phase4 : Except String (List PreloadItem)

/-- `CacheWarmingEngine.warm_cache_for_session` (cag_cache_warmer.py
lines 269-318).  The body contains no exception handler, so a raised
exception in any phase fetch propagates immediately (modelled by the
nested matches on `Except`); on success each phase preloads its items,
increments `phases_completed` and adds its item count to
`items_loaded`; `cache_size` is the final dict size.
`background_preload` (line 264) just calls `preload_to_context`. -/
def CacheWarmingEngine.warm_cache_for_session (threshold : ℚ) (now : Int)
    (cache : WarmCache) (env : WarmPhaseFetches) : Except String (WarmCache × CacheStats) :=
  match env.phase1 with
  | .error e => .error e
  | .ok core_knowledge =>
    let c1 := CacheWarmingEngine.preload_to_context threshold now cache core_knowledge
    match env.phase2 with
    | .error e => .error e
    | .ok session_knowledge =>
      let c2 := CacheWarmingEngine.preload_to_context threshold now c1 session_knowledge
      match env.phase3 with
      | .error e => .error e
      | .ok predicted_knowledge =>
        let c3 := CacheWarmingEngine.preload_to_context threshold now c2 predicted_knowledge
        match env.phase4 with
        | .error e => .error e
        | .ok strategic_knowledge =>
          let c4 := CacheWarmingEngine.preload_to_context threshold now c3 strategic_knowledge
          .ok (c4, ⟨4,
            core_knowledge.length + session_knowledge.length + predicted_knowledge.length
              + strategic_knowledge.length, c4.length⟩)

/-- The outcome of the three phase fetches of
`CAGCacheWarmerMCP.warm_cache_for_session` (cag_mcp_integrated.py lines
544, 551, 558: `load_core_knowledge`, `predict_session_knowledge`,
`load_strategic_insights`; the MCP variant has no pattern phase). -/
structure WarmPhaseFetchesMCP where
  phase1 : Except String (List PreloadItem)
  phase2 : Except String (List PreloadItem)
  phase3 : Except String (List PreloadItem)

/-- `CAGCacheWarmerMCP.warm_cache_for_session` (cag_mcp_integrated.py
lines 526-568): same unguarded structure with three phases. -/
def CAGCacheWarmerMCP.warm_cache_for_session (threshold : ℚ) (now : Int)
    (cache : WarmCache) (env : WarmPhaseFetchesMCP) : Except String (WarmCache × CacheStats) :=
  match env.phase1 with
  | .error e => .error e
  | .ok core_knowledge =>
    let c1 := CacheWarmingEngine.preload_to_context threshold now cache core_knowledge
    match env.phase2 with
    | .error e => .error e
    | .ok session_knowledge =>
      let c2 := CacheWarmingEngine.preload_to_context threshold now c1 session_knowledge
      match env.phase3 with
      | .error e => .error e
      | .ok strategic_knowledge =>
        let c3 := CacheWarmingEngine.preload_to_context threshold now c2 strategic_knowledge
        .ok (c3, ⟨3,
          core_knowledge.length + session_knowledge.length + strategic_knowledge.length,
          c3.length⟩)

/-- The `ContextLayer` enumeration in definition order
(cag_context_manager.py lines 24-32, cag_mcp_integrated.py lines 33-41);
`compile_context` iterates the layers in exactly this order. -/
def contextLayerOrder : List String :=
  ["system", "project", "session", "domain", "experience", "strategic", "dynamic", "response"]

/-- Python `str.upper()` restricted to the eight canonical layer names:
`compile_context` only ever applies it to members of
`contextLayerOrder` (other strings are returned unchanged, a case the
source never exercises). -/
def layerUpper (l : String) : String :=
  if l = "system" then "SYSTEM"
  else if l = "project" then "PROJECT"
  else if l = "session" then "SESSION"
  else if l = "domain" then "DOMAIN"
  else if l = "experience" then "EXPERIENCE"
  else if l = "strategic" then "STRATEGIC"
  else if l = "dynamic" then "DYNAMIC"
  else if l = "response" then "RESPONSE"
  else l

/-- `CAGContextManager.compile_context` (cag_context_manager.py lines
303-314).  The context dict is modelled as a total map from layer name
to layer body, with `""` for an absent layer: the guard
`layer_name in context and context[layer_name]` holds exactly when the
body is a non-empty string (all stored values are strings). -/
def CAGContextManager.compile_context (context : String → String) : String :=
  String.intercalate "\n" (contextLayerOrder.foldl (fun compiled layer =>
    if context layer ≠ "" then
      compiled ++ ["=== " ++ layerUpper layer ++ " CONTEXT ===", context layer, ""]
    else compiled) [])

/-- `CAGContextManagerMCP.compile_context` (cag_mcp_integrated.py lines
361-372): identical loop, but the header line reads
`=== <LAYER> CONTEXT (MCP-INTEGRATED) ===`. -/
def CAGContextManagerMCP.compile_context (context : String → String) : String :=
  String.intercalate "\n" (contextLayerOrder.foldl (fun compiled layer =>
    if context layer ≠ "" then
      compiled ++ ["=== " ++ layerUpper layer ++ " CONTEXT (MCP-INTEGRATED) ===",
        context layer, ""]
    else compiled) [])

/-- The compiled-context format in the words of the specification: for
each non-empty layer, in the canonical order, the header line
`=== <LAYER> CONTEXT ===`, the layer body, and a blank line. -/
def specHeaderLine (layer : String) : String :=
  "=== " ++ layerUpper layer ++ " CONTEXT ==="

/-- Specification-side compiled context (see `specHeaderLine`); compared
against both implementations. -/
def specCompiledContext (context : String → String) : String :=
  String.intercalate "\n"
    (((contextLayerOrder.filter (fun l => context l ≠ "")).map
      (fun l => [specHeaderLine l, context l, ""])).flatten)

/-- The header line the MCP implementation actually emits (the amended
format for the tool-invocation variant). -/
def specHeaderLineMCP (layer : String) : String :=
  "=== " ++ layerUpper layer ++ " CONTEXT (MCP-INTEGRATED) ==="

/-- Amended specification-side compiled context for the MCP variant. -/
def specCompiledContextMCP (context : String → String) : String :=
  String.intercalate "\n"
    (((contextLayerOrder.filter (fun l => context l ≠ "")).map
      (fun l => [specHeaderLineMCP l, context l, ""])).flatten)

/-- `CAGContextManager.count_tokens` (cag_context_manager.py lines
67-69): `len(text.split()) * 1.3`, returned as the exact product — the
source performs no rounding (despite its `-> int` annotation). -/
def CAGContextManager.count_tokens (text : String) : ℚ :=
  (pyWordCount text : ℚ) * 1.3

/-- `CAGContextManagerMCP.count_tokens` (cag_mcp_integrated.py lines
176-178): same expression. -/
def CAGContextManagerMCP.count_tokens (text : String) : ℚ :=
  (pyWordCount text : ℚ) * 1.3

/-- The `performance_metrics` dict of the engine (cag_engine.py lines 27-32);
the MCP engine (cag_mcp_integrated.py lines 578-584) adds only an
`mcp_calls` counter, which no claim concerns. -/
structure PerformanceMetrics where
  cache_hits : Nat
  cache_misses : Nat
  average_response_time : ℚ
  total_queries : Nat
deriving DecidableEq

/-- Engine state: the session warming registry `session_cache_warmed`
(keys only; the stored per-session stats are not read by any modelled
operation) and the metrics.  `warmLog` is an observation added by the
embedding: it records one entry per executed call to
`cache_warmer.warm_cache_for_session` (cag_engine.py line 59), so that
"the warmer executed at most once" is statable. -/
structure EngineState where
  session_cache_warmed : List String
  warmLog : List String
  performance_metrics : PerformanceMetrics
deriving DecidableEq

/-- A freshly constructed engine (cag_engine.py lines 21-32). -/
def CAGEngine.initialState : EngineState := ⟨[], [], ⟨0, 0, 0, 0⟩⟩

/-- `CAGEngine.ensure_cache_warmed` (cag_engine.py lines 45-66);
`CAGEngineMCP.ensure_cache_warmed` (cag_mcp_integrated.py lines
586-608) is identical on the modelled state.  If the session is already
registered, return unchanged; otherwise run the cache warmer (recorded
in `warmLog`) and register the session.  This is the COMPLETED-call
model: the warmer is assumed to return normally, as in every claim
about the values a finished `process_query` reports.  The raise path
of the warmer — the `await` at line 59 has no handler, so an exception
leaves the session unregistered and propagates — is modelled by
`CAGEngine.ensure_cache_warmedE` below, and
`ensure_cache_warmedE_ok` proves this function is its success
restriction. -/
def CAGEngine.ensure_cache_warmed (s : EngineState) (session_id : String) : EngineState :=
  if session_id ∈ s.session_cache_warmed then s
  else { s with session_cache_warmed := s.session_cache_warmed ++ [session_id],
                warmLog := s.warmLog ++ [session_id] }

/-- `CAGEngine.ensure_cache_warmed` with the outcome of the
`cache_warmer.warm_cache_for_session` call made explicit
(cag_engine.py lines 45-66): if the session is not yet registered the
warmer executes (always recorded in `warmLog`); when it raises
(`warm_result = .error e`, the unguarded path of C2) the exception
propagates BEFORE the registration at line 60, so the session stays
unregistered — only a normal return registers it.  The returned state
is the engine object as the caller observes it afterwards (Python
object state persists across a raised exception). -/
def CAGEngine.ensure_cache_warmedE (s : EngineState) (session_id : String)
    (warm_result : Except String Unit) : EngineState × Except String Unit :=
  if session_id ∈ s.session_cache_warmed then (s, Except.ok ())
  else
    match warm_result with
    | .error e => ({ s with warmLog := s.warmLog ++ [session_id] }, Except.error e)
    | .ok _ => ({ s with session_cache_warmed := s.session_cache_warmed ++ [session_id],
                         warmLog := s.warmLog ++ [session_id] }, Except.ok ())

/-- `CAGEngine._update_performance_metrics` (cag_engine.py lines
109-125); `CAGEngineMCP._update_performance_metrics`
(cag_mcp_integrated.py lines 650-666) is identical apart from the
`mcp_calls` counter. -/
def CAGEngine.update_performance_metrics (m : PerformanceMetrics) (cache_hit : Bool)
    (total_processing_time : ℚ) : PerformanceMetrics :=
  let total_queries := m.total_queries + 1
  { cache_hits := if cache_hit then m.cache_hits + 1 else m.cache_hits
    cache_misses := if cache_hit then m.cache_misses else m.cache_misses + 1
    average_response_time :=
      (m.average_response_time * ((total_queries : ℚ) - 1) + total_processing_time)
        / (total_queries : ℚ)
    total_queries := total_queries }

/-- `CAGEngine.process_query` (cag_engine.py lines 68-99) restricted to
the state it touches; `CAGEngineMCP.process_query` (cag_mcp_integrated.py
lines 610-648) has the same structure.  The context loading is elided
(it reads no engine state that any claim concerns);
`total_processing_time` is the measured wall-clock duration, an input
of the model.  The returned Bool is the envelope field
`performance.cache_hit`, computed in the source as
`session_id in self.session_cache_warmed` — evaluated AFTER
`ensure_cache_warmed` has run.  This is the completed-call model; the
variant `CAGEngine.process_queryE` below exposes the path on which the
warmer raises and the call aborts. -/
def CAGEngine.process_query (s : EngineState) (session_id : String)
    (total_processing_time : ℚ) : EngineState × Bool :=
  let s1 := CAGEngine.ensure_cache_warmed s session_id
  let cache_hit := decide (session_id ∈ s1.session_cache_warmed)
  let m := CAGEngine.update_performance_metrics s1.performance_metrics cache_hit
    total_processing_time
  ({ s1 with performance_metrics := m }, cache_hit)

/-- A sequence of `process_query` calls: each element is the session id
and the measured processing time of one call. -/
def CAGEngine.runQueries (s : EngineState) (qs : List (String × ℚ)) : EngineState :=
  qs.foldl (fun st q => (CAGEngine.process_query st q.1 q.2).1) s

/-- `CAGEngine.process_query` with the warming outcome explicit: when
`ensure_cache_warmedE` propagates a warmer exception, the call aborts
— no envelope, no metrics update — but the persistent object state
(including the `warmLog` record of the failed warmer execution)
remains. -/
def CAGEngine.process_queryE (s : EngineState) (session_id : String)
    (warm_result : Except String Unit) (total_processing_time : ℚ) :
    EngineState × Except String Bool :=
  match CAGEngine.ensure_cache_warmedE s session_id warm_result with
  | (s1, .error e) => (s1, Except.error e)
  | (s1, .ok _) =>
    let cache_hit := decide (session_id ∈ s1.session_cache_warmed)
    let m := CAGEngine.update_performance_metrics s1.performance_metrics cache_hit
      total_processing_time
    ({ s1 with performance_metrics := m }, Except.ok cache_hit)

/-- A sequence of `process_query` calls with explicit warming outcomes:
each element is the session id, the outcome the warmer would have on
this call, and the measured processing time. -/
def CAGEngine.runQueriesE (s : EngineState)
    (qs : List (String × Except String Unit × ℚ)) : EngineState :=
  qs.foldl (fun st q => (CAGEngine.process_queryE st q.1 q.2.1 q.2.2).1) s

/-- Two `process_query` calls for session `"S1"` in both of which the
warmer raises (e.g. the database is down throughout). -/
def c4FailTrace : List (String × Except String Unit × ℚ) :=
  [("S1", Except.error "db down", 1), ("S1", Except.error "db down", 1)]

/-- An engine state whose warming registry already holds `"S1"` after
one successful warm. -/
def c4WarmedState : EngineState := ⟨["S1"], ["S1"], ⟨0, 0, 0, 0⟩⟩

/-- Phase-fetch environment in which the Phase-1 load raises
(database connection failure) and the remaining phases would have
succeeded with empty results. -/
def c2FailEnv : WarmPhaseFetches :=
  ⟨.error "db connection failed", .ok [], .ok [], .ok []⟩

/-- A scored candidate item used by concrete warming runs. -/
def warmOkItem : PreloadItem := ⟨"k1", "procedural", "t", "c", 1, "domain"⟩

/-- All-successful phase-fetch environment (direct variant). -/
def c2OkEnv : WarmPhaseFetches := ⟨.ok [warmOkItem], .ok [], .ok [], .ok []⟩

/-- All-successful phase-fetch environment (MCP variant). -/
def c2OkEnvMCP : WarmPhaseFetchesMCP := ⟨.ok [warmOkItem], .ok [], .ok []⟩

/-- A candidate item above the default threshold (priority 1/2). -/
def c3WitnessItem : PreloadItem := ⟨"id1", "procedural", "t", "c", 1/2, "domain"⟩

/-- A context dict with only the `system` layer non-empty. -/
def c6Ctx : String → String := fun l => if l = "system" then "X" else ""

/-- Cache entry of given priority used in the `get_cached_knowledge`
counterexample. -/
def c8Entry (p : ℚ) : CacheEntry := ⟨"content", "title", "procedural", p, 0⟩

/-- A warm cache holding eleven entries of the `domain` layer (one more
than the default `limit = 10` of `get_cached_knowledge`); the last has
the strictly lowest priority. -/
def c8Cache : WarmCache :=
  [("domain:0", c8Entry 1), ("domain:1", c8Entry 1), ("domain:2", c8Entry 1),
   ("domain:3", c8Entry 1), ("domain:4", c8Entry 1), ("domain:5", c8Entry 1),
   ("domain:6", c8Entry 1), ("domain:7", c8Entry 1), ("domain:8", c8Entry 1),
   ("domain:9", c8Entry 1), ("domain:10", c8Entry (1/2))]

/-- The scenario item again, for the purity claim: type `procedural`,
created day 0, 5 accesses, importance 40. -/
def c9Item : KnowledgeItem :=
  ⟨"item-1", "title", "content", "cat", "procedural", 0, 5, 40⟩

/-- The same scoring-relevant fields as `c9Item`, different `id`,
`title`, `content` and `category`. -/
def c9ItemCopy : KnowledgeItem :=
  ⟨"item-2", "other title", "other content", "other cat", "procedural", 0, 5, 40⟩

/-- A one-entry warm cache for the retrieval witness. -/
def c8SmallCache : WarmCache := [("domain:a", c8Entry 1)]

theorem mem_dictInsert {cache : WarmCache} {k : String} {v : CacheEntry}
    {kv : String × CacheEntry} (h : kv ∈ dictInsert cache k v) :
    kv ∈ cache ∨ kv = (k, v) := by
  unfold dictInsert at h
  by_cases hc : cache.any (fun p => p.1 == k)
  · rw [if_pos hc] at h
    rcases List.mem_map.mp h with ⟨p, hp, he⟩
    by_cases hpk : p.1 == k
    · right
      rw [if_pos hpk] at he
      exact he.symm
    · left
      rw [if_neg hpk] at he
      exact he ▸ hp
  · rw [if_neg hc] at h
    rcases List.mem_append.mp h with h1 | h1
    · exact Or.inl h1
    · exact Or.inr (List.mem_singleton.mp h1)

theorem preload_to_context_priority_invariant (threshold : ℚ) (now : Int)
    (items : List PreloadItem) (cache : WarmCache)
    (hc : ∀ kv ∈ cache, threshold ≤ kv.2.priority) :
    ∀ kv ∈ CacheWarmingEngine.preload_to_context threshold now cache items,
      threshold ≤ kv.2.priority := by
  induction items generalizing cache with
  | nil =>
    simpa [CacheWarmingEngine.preload_to_context] using hc
  | cons item rest ih =>
    intro kv hkv
    rw [CacheWarmingEngine.preload_to_context, List.foldl_cons] at hkv
    refine ih _ ?_ kv hkv
    intro kv2 hkv2
    by_cases hp : item.cache_priority ≥ threshold
    · rw [if_pos hp] at hkv2
      rcases mem_dictInsert hkv2 with h1 | h1
      · exact hc kv2 h1
      · rw [h1]
        exact hp
    · rw [if_neg hp] at hkv2
      exact hc kv2 hkv2

/-- C3: after any sequence of preload operations (session warming
phases, domain warming) against an initially empty warm cache, every
entry present in the cache has priority at least
`cache_priority_threshold`: the insertion gate of `preload_to_context`
never lets a below-threshold candidate through. -/
theorem c3_cache_priority_threshold_invariant (now : Int)
    (ops : List (List PreloadItem)) (kv : String × CacheEntry)
    (h : kv ∈ CacheWarmingEngine.runPreloads cache_priority_threshold now ops) :
    cache_priority_threshold ≤ kv.2.priority := by
  rw [CacheWarmingEngine.runPreloads] at h
  have hgen : ∀ (l : List (List PreloadItem)) (cache : WarmCache),
      (∀ kv2 ∈ cache, cache_priority_threshold ≤ kv2.2.priority) →
      ∀ kv2 ∈ l.foldl (fun c items =>
          CacheWarmingEngine.preload_to_context cache_priority_threshold now c items) cache,
        cache_priority_threshold ≤ kv2.2.priority := by
    intro l
    induction l with
    | nil => intro cache hcache; simpa using hcache
    | cons items rest ih =>
      intro cache hcache kv2 hkv2
      rw [List.foldl_cons] at hkv2
      exact ih _ (preload_to_context_priority_invariant _ _ _ _ hcache) kv2 hkv2
  exact hgen ops [] (by simp) kv h

/-- Witness for C3 at a concrete run: one preload of a single item with
priority 1/2 ≥ 0.3; the resulting cache holds the item and the theorem
yields the bound. -/
theorem c3_witness :
    cache_priority_threshold ≤
      (("domain:id1", (⟨"c", "t", "procedural", 1/2, 0⟩ : CacheEntry)) :
        String × CacheEntry).2.priority :=
  c3_cache_priority_threshold_invariant 0 [[c3WitnessItem]]
    ("domain:id1", ⟨"c", "t", "procedural", 1/2, 0⟩)
    (by
      simp [CacheWarmingEngine.runPreloads, CacheWarmingEngine.preload_to_context,
        dictInsert, c3WitnessItem, cache_priority_threshold]
      norm_num)

/-- C5: on the item {type: procedural, importance 40, created now,
access_count 5} the Mode-A scorer returns 0.805, the Mode-B scorer
returns 0.73, and both layer classifiers return `domain`. -/
theorem c5_scenario_scores :
    CacheWarmingEngine.calculate_cache_priority 0 scenarioItem = 0.805 ∧
    CAGCacheWarmerMCP.calculate_cache_priority 0 scenarioItem = 0.73 ∧
    CacheWarmingEngine.determine_cache_layer scenarioItem = "domain" ∧
    CAGCacheWarmerMCP.determine_cache_layer scenarioItem = "domain" := by
  refine ⟨?_, ?_, by decide, by decide⟩
  · simp [CacheWarmingEngine.calculate_cache_priority, scenarioItem, strategicValue,
      typeWeight, pymin, pymax]
    norm_num
  · simp [CAGCacheWarmerMCP.calculate_cache_priority, scenarioItem, typeWeight, pymin, pymax]
    norm_num

/-- Counterexample to C9 as stated: the scorer reads the ambient clock
(`datetime.now()`), so the same item scored on day 0 and on day 40
yields different priorities (0.805 versus 0.505): identical inputs do
NOT give identical outputs "regardless of when the calls are made". -/
theorem c9_counterexample :
    CacheWarmingEngine.calculate_cache_priority 0 c9Item ≠
      CacheWarmingEngine.calculate_cache_priority 40 c9Item := by
  have h0 : CacheWarmingEngine.calculate_cache_priority 0 c9Item = 0.805 := by
    simp [CacheWarmingEngine.calculate_cache_priority, c9Item, strategicValue,
      typeWeight, pymin, pymax]
    norm_num
  have h40 : CacheWarmingEngine.calculate_cache_priority 40 c9Item = 0.505 := by
    simp [CacheWarmingEngine.calculate_cache_priority, c9Item, strategicValue,
      typeWeight, pymin, pymax]
    norm_num
  rw [h0, h40]
  norm_num

/-- C9 amended: both scorers are deterministic functions of the scoring-relevant item
scoring-relevant fields AND the evaluation time: two items agreeing on
`knowledge_type`, `created_at`, `access_count` and `importance_score`,
scored at the same current time, receive identical priorities (the
remaining fields do not influence the score). -/
theorem c9_amended (now : Int) (a b : KnowledgeItem)
    (h1 : a.knowledge_type = b.knowledge_type) (h2 : a.created_at = b.created_at)
    (h3 : a.access_count = b.access_count) (h4 : a.importance_score = b.importance_score) :
    CacheWarmingEngine.calculate_cache_priority now a =
      CacheWarmingEngine.calculate_cache_priority now b ∧
    CAGCacheWarmerMCP.calculate_cache_priority now a =
      CAGCacheWarmerMCP.calculate_cache_priority now b := by
  constructor
  · simp [CacheWarmingEngine.calculate_cache_priority, h1, h2, h3]
  · simp [CAGCacheWarmerMCP.calculate_cache_priority, h1, h2, h4]

/-- Witness for C9 amended: two items differing only in `id`, `title`,
`content`, `category` receive equal scores at day 0. -/
theorem c9_witness :
    CacheWarmingEngine.calculate_cache_priority 0 c9Item =
      CacheWarmingEngine.calculate_cache_priority 0 c9ItemCopy ∧
    CAGCacheWarmerMCP.calculate_cache_priority 0 c9Item =
      CAGCacheWarmerMCP.calculate_cache_priority 0 c9ItemCopy :=
  c9_amended 0 c9Item c9ItemCopy rfl rfl rfl rfl

theorem ensure_cache_warmed_mem (s : EngineState) (sid : String) :
    sid ∈ (CAGEngine.ensure_cache_warmed s sid).session_cache_warmed := by
  unfold CAGEngine.ensure_cache_warmed
  by_cases h : sid ∈ s.session_cache_warmed
  · rw [if_pos h]
    exact h
  · rw [if_neg h]
    simp

theorem ensure_cache_warmed_metrics (s : EngineState) (sid : String) :
    (CAGEngine.ensure_cache_warmed s sid).performance_metrics = s.performance_metrics := by
  unfold CAGEngine.ensure_cache_warmed
  by_cases h : sid ∈ s.session_cache_warmed
  · rw [if_pos h]
  · rw [if_neg h]

/-- C1, settled against the code: the envelope field
`performance.cache_hit` is computed as
`session_id in self.session_cache_warmed` only after
`ensure_cache_warmed` has already registered the session, so it is true
on EVERY call — including the very first call for a fresh session —
and `cache_misses` is never incremented (on the first call for "S1"
from a fresh engine, `cache_hits` becomes 1 and `cache_misses` stays
0, where the claim requires `cache_hit = false` and a miss). -/
theorem c1_cache_hit_always_true :
    (∀ (s : EngineState) (sid : String) (t : ℚ),
      (CAGEngine.process_query s sid t).2 = true) ∧
    (CAGEngine.process_query CAGEngine.initialState "S1" 1).2 = true ∧
    (CAGEngine.process_query CAGEngine.initialState "S1" 1).1.performance_metrics.cache_hits
      = 1 ∧
    (CAGEngine.process_query CAGEngine.initialState "S1" 1).1.performance_metrics.cache_misses
      = 0 := by
  have key : ∀ (s : EngineState) (sid : String) (t : ℚ),
      (CAGEngine.process_query s sid t).2 = true := by
    intro s sid t
    simp only [CAGEngine.process_query, decide_eq_true_eq]
    exact ensure_cache_warmed_mem s sid
  refine ⟨key, key _ _ _, ?_, ?_⟩
  · simp [CAGEngine.process_query, CAGEngine.ensure_cache_warmed,
      CAGEngine.update_performance_metrics, CAGEngine.initialState]
  · simp [CAGEngine.process_query, CAGEngine.ensure_cache_warmed,
      CAGEngine.update_performance_metrics, CAGEngine.initialState]

theorem ensure_cache_warmedE_ok (s : EngineState) (sid : String) :
    CAGEngine.ensure_cache_warmedE s sid (Except.ok ())
      = (CAGEngine.ensure_cache_warmed s sid, Except.ok ()) := by
  unfold CAGEngine.ensure_cache_warmedE CAGEngine.ensure_cache_warmed
  by_cases h : sid ∈ s.session_cache_warmed
  · rw [if_pos h, if_pos h]
  · rw [if_neg h, if_neg h]

theorem process_queryE_registry (s : EngineState) (sid : String)
    (w : Except String Unit) (t : ℚ) :
    (CAGEngine.process_queryE s sid w t).1.session_cache_warmed
      = (CAGEngine.ensure_cache_warmedE s sid w).1.session_cache_warmed ∧
    (CAGEngine.process_queryE s sid w t).1.warmLog
      = (CAGEngine.ensure_cache_warmedE s sid w).1.warmLog := by
  rcases h : CAGEngine.ensure_cache_warmedE s sid w with ⟨s1, r⟩
  cases r <;> simp [CAGEngine.process_queryE, h]

theorem runQueriesE_invariant (sid : String) :
    ∀ (qs : List (String × Except String Unit × ℚ)) (s : EngineState),
      s.session_cache_warmed.Nodup →
      (CAGEngine.runQueriesE s qs).session_cache_warmed.Nodup ∧
      ((∀ q ∈ qs, q.1 = sid → q.2.1 = Except.ok ()) →
        s.warmLog.count sid = s.session_cache_warmed.count sid →
        (CAGEngine.runQueriesE s qs).warmLog.count sid
          = (CAGEngine.runQueriesE s qs).session_cache_warmed.count sid) := by
  intro qs
  induction qs with
  | nil =>
    intro s hnodup
    exact ⟨hnodup, fun _ hcount => hcount⟩
  | cons q rest ih =>
    rcases q with ⟨id, w, t⟩
    intro s hnodup
    have hr : CAGEngine.runQueriesE s ((id, w, t) :: rest) =
        CAGEngine.runQueriesE ((CAGEngine.process_queryE s id w t).1) rest := rfl
    rw [hr]
    obtain ⟨hreg, hlog⟩ := process_queryE_registry s id w t
    by_cases hmem : id ∈ s.session_cache_warmed
    · have e1 : (CAGEngine.ensure_cache_warmedE s id w).1 = s := by
        simp [CAGEngine.ensure_cache_warmedE, hmem]
      rw [e1] at hreg hlog
      obtain ⟨ih1, ih2⟩ := ih _ (hreg ▸ hnodup)
      refine ⟨ih1, fun hall hcount => ?_⟩
      exact ih2 (fun q hq => hall q (List.mem_cons_of_mem _ hq)) (by rw [hreg, hlog]; exact hcount)
    · cases w with
      | error e =>
        have e1 : (CAGEngine.ensure_cache_warmedE s id (Except.error e)).1
            = { s with warmLog := s.warmLog ++ [id] } := by
          simp [CAGEngine.ensure_cache_warmedE, hmem]
        rw [e1] at hreg hlog
        obtain ⟨ih1, ih2⟩ := ih _ (hreg ▸ hnodup)
        refine ⟨ih1, fun hall hcount => ?_⟩
        have hne : id ≠ sid := by
          intro hid
          exact Except.noConfusion (hall (id, Except.error e, t) (List.mem_cons_self _ _) hid)
        refine ih2 (fun q hq => hall q (List.mem_cons_of_mem _ hq)) ?_
        rw [hreg, hlog]
        simp only [List.count_append, List.count_cons, List.count_nil]
        simp [hne, hcount]
      | ok u =>
        cases u
        have e1 : (CAGEngine.ensure_cache_warmedE s id (Except.ok ())).1
            = { s with session_cache_warmed := s.session_cache_warmed ++ [id],
                       warmLog := s.warmLog ++ [id] } := by
          simp [CAGEngine.ensure_cache_warmedE, hmem]
        rw [e1] at hreg hlog
        have hnodup2 : ((CAGEngine.process_queryE s id (Except.ok ()) t).1).session_cache_warmed.Nodup := by
          rw [hreg]
          simp [List.nodup_append, hnodup, hmem]
        obtain ⟨ih1, ih2⟩ := ih _ hnodup2
        refine ⟨ih1, fun hall hcount => ?_⟩
        refine ih2 (fun q hq => hall q (List.mem_cons_of_mem _ hq)) ?_
        rw [hreg, hlog]
        simp only [List.count_append, List.count_cons, List.count_nil]
        simp [hcount]

/-- Counterexample to C4 as stated: the warmer invocation in
`ensure_cache_warmed` has no handler and the session is registered only
after a normal return, so when warming raises on both of two
`process_query("…", "S1")` calls, the warmer executes twice for the
same session — more than "at most once". -/
theorem c4_counterexample :
    ¬ ((CAGEngine.runQueriesE CAGEngine.initialState c4FailTrace).warmLog.count "S1" ≤ 1) := by
  decide

/-- C4 amended: (1) once a session is recorded in the warming registry,
a `process_query` call with it short-circuits: the warmer does not
execute (`warmLog` unchanged) whatever the would-be warming outcome;
(2) the warmer COMPLETES successfully at most once per session over any
call sequence (the registry never collects duplicates); (3) hence in
every run in which no warming attempt for the session raises, the
warmer executes at most once — but a raising attempt leaves the
session unregistered, and a later call executes the warmer again
(see the counterexample). -/
theorem c4_amended (sid : String) :
    (∀ (s : EngineState) (w : Except String Unit) (t : ℚ),
      sid ∈ s.session_cache_warmed →
        (CAGEngine.process_queryE s sid w t).1.warmLog = s.warmLog ∧
        (CAGEngine.process_queryE s sid w t).1.session_cache_warmed
          = s.session_cache_warmed) ∧
    (∀ qs : List (String × Except String Unit × ℚ),
      (CAGEngine.runQueriesE CAGEngine.initialState qs).session_cache_warmed.count sid
        ≤ 1) ∧
    (∀ qs : List (String × Except String Unit × ℚ),
      (∀ q ∈ qs, q.1 = sid → q.2.1 = Except.ok ()) →
      (CAGEngine.runQueriesE CAGEngine.initialState qs).warmLog.count sid ≤ 1) := by
  refine ⟨?_, ?_, ?_⟩
  · intro s w t hmem
    obtain ⟨hreg, hlog⟩ := process_queryE_registry s sid w t
    have e1 : (CAGEngine.ensure_cache_warmedE s sid w).1 = s := by
      simp [CAGEngine.ensure_cache_warmedE, hmem]
    rw [e1] at hreg hlog
    exact ⟨hlog, hreg⟩
  · intro qs
    have h := runQueriesE_invariant sid qs CAGEngine.initialState (by
      simp [CAGEngine.initialState])
    exact List.nodup_iff_count_le_one.mp h.1 sid
  · intro qs hall
    have h := runQueriesE_invariant sid qs CAGEngine.initialState (by
      simp [CAGEngine.initialState])
    have hc := h.2 hall (by simp [CAGEngine.initialState])
    rw [hc]
    exact List.nodup_iff_count_le_one.mp h.1 sid

/-- Witness for C4 amended: with `"S1"` already registered, a further
call leaves both the warm log and the registry unchanged. -/
theorem c4_witness :
    (CAGEngine.process_queryE c4WarmedState "S1" (Except.ok ()) 1).1.warmLog
        = c4WarmedState.warmLog ∧
    (CAGEngine.process_queryE c4WarmedState "S1" (Except.ok ()) 1).1.session_cache_warmed
        = c4WarmedState.session_cache_warmed :=
  (c4_amended "S1").1 c4WarmedState (Except.ok ()) 1 (by simp [c4WarmedState])

theorem update_performance_metrics_spec (m : PerformanceMetrics) (hit : Bool) (t : ℚ) :
    (CAGEngine.update_performance_metrics m hit t).total_queries = m.total_queries + 1 ∧
    (CAGEngine.update_performance_metrics m hit t).cache_hits
      + (CAGEngine.update_performance_metrics m hit t).cache_misses
      = m.cache_hits + m.cache_misses + 1 ∧
    (CAGEngine.update_performance_metrics m hit t).average_response_time
      * (((CAGEngine.update_performance_metrics m hit t).total_queries : ℕ) : ℚ)
      = m.average_response_time * (m.total_queries : ℚ) + t := by
  refine ⟨rfl, ?_, ?_⟩
  · cases hit <;> simp [CAGEngine.update_performance_metrics] <;> omega
  · have hne : ((m.total_queries : ℚ) + 1) ≠ 0 := Nat.cast_add_one_ne_zero m.total_queries
    simp only [CAGEngine.update_performance_metrics]
    push_cast
    field_simp

theorem process_query_metrics (s : EngineState) (sid : String) (t : ℚ) :
    (CAGEngine.process_query s sid t).1.performance_metrics =
      CAGEngine.update_performance_metrics s.performance_metrics
        (decide (sid ∈ (CAGEngine.ensure_cache_warmed s sid).session_cache_warmed)) t := by
  simp [CAGEngine.process_query, ensure_cache_warmed_metrics]

theorem runQueries_metrics (qs : List (String × ℚ)) (s : EngineState) :
    (CAGEngine.runQueries s qs).performance_metrics.total_queries
      = s.performance_metrics.total_queries + qs.length ∧
    (CAGEngine.runQueries s qs).performance_metrics.cache_hits
      + (CAGEngine.runQueries s qs).performance_metrics.cache_misses
      = s.performance_metrics.cache_hits + s.performance_metrics.cache_misses + qs.length ∧
    (CAGEngine.runQueries s qs).performance_metrics.average_response_time
      * (((CAGEngine.runQueries s qs).performance_metrics.total_queries : ℕ) : ℚ)
      = s.performance_metrics.average_response_time
          * (s.performance_metrics.total_queries : ℚ)
        + (qs.map Prod.snd).sum := by
  induction qs generalizing s with
  | nil => simp [CAGEngine.runQueries]
  | cons q rest ih =>
    have hr : CAGEngine.runQueries s (q :: rest) =
        CAGEngine.runQueries ((CAGEngine.process_query s q.1 q.2).1) rest := rfl
    rw [hr]
    obtain ⟨ht, hh, ha⟩ := update_performance_metrics_spec s.performance_metrics
      (decide (q.1 ∈ (CAGEngine.ensure_cache_warmed s q.1).session_cache_warmed)) q.2
    obtain ⟨ht2, hh2, ha2⟩ := ih ((CAGEngine.process_query s q.1 q.2).1)
    rw [process_query_metrics] at ht2 hh2 ha2
    refine ⟨?_, ?_, ?_⟩
    · rw [ht2, ht]
      simp
      omega
    · rw [hh2, hh]
      simp
      omega
    · rw [ha2, ha]
      simp only [List.map_cons, List.sum_cons]
      ring

/-- C10: after any sequence of completed `process_query` calls from a
fresh engine, `cache_hits + cache_misses = total_queries`,
`total_queries` equals the number of calls, and (when at least one call
happened) `average_response_time` is the arithmetic mean of the
`total_processing_time` values of all calls — the rolling update
`(avg * (n - 1) + new) / n` preserves the mean exactly (in exact
rational arithmetic; the Python floats incur rounding). -/
theorem c10_metrics_invariant (qs : List (String × ℚ)) :
    (CAGEngine.runQueries CAGEngine.initialState qs).performance_metrics.cache_hits
      + (CAGEngine.runQueries CAGEngine.initialState qs).performance_metrics.cache_misses
      = (CAGEngine.runQueries CAGEngine.initialState qs).performance_metrics.total_queries ∧
    (CAGEngine.runQueries CAGEngine.initialState qs).performance_metrics.total_queries
      = qs.length ∧
    (qs ≠ [] →
      (CAGEngine.runQueries CAGEngine.initialState qs).performance_metrics.average_response_time
        = (qs.map Prod.snd).sum / (qs.length : ℚ)) := by
  obtain ⟨ht, hh, ha⟩ := runQueries_metrics qs CAGEngine.initialState
  have e1 : CAGEngine.initialState.performance_metrics.cache_hits = 0 := rfl
  have e2 : CAGEngine.initialState.performance_metrics.cache_misses = 0 := rfl
  have e3 : CAGEngine.initialState.performance_metrics.total_queries = 0 := rfl
  have e4 : CAGEngine.initialState.performance_metrics.average_response_time = 0 := rfl
  rw [e3] at ht
  rw [e1, e2] at hh
  rw [e3, e4] at ha
  norm_num at ht hh ha
  refine ⟨by omega, ht, ?_⟩
  intro hne
  have hlen : ((qs.length : ℕ) : ℚ) ≠ 0 := by
    have hpos : 0 < qs.length := List.length_pos.mpr hne
    exact_mod_cast Nat.pos_iff_ne_zero.mp hpos
  rw [ht] at ha
  rw [eq_div_iff hlen]
  exact ha

/-- Witness for C10 on the one-query sequence `[("S1", 2)]`. -/
theorem c10_witness :
    (CAGEngine.runQueries CAGEngine.initialState
        [("S1", 2)]).performance_metrics.average_response_time
      = (([("S1", (2:ℚ))].map Prod.snd).sum) / (([("S1", (2:ℚ))].length : ℕ) : ℚ) :=
  (c10_metrics_invariant [("S1", 2)]).2.2 (by simp)

/-- Counterexample to C2 as stated: `warm_cache_for_session` contains no
per-phase exception handler, so when the Phase-1 fetch raises, the call
does NOT return a `CacheStats` record — the exception propagates and
the remaining phases are never attempted. -/
theorem c2_counterexample :
    ¬ ∃ p : WarmCache × CacheStats,
      CacheWarmingEngine.warm_cache_for_session cache_priority_threshold 0 [] c2FailEnv
        = Except.ok p := by
  rintro ⟨p, h⟩
  rw [show CacheWarmingEngine.warm_cache_for_session cache_priority_threshold 0 [] c2FailEnv
      = Except.error "db connection failed" from rfl] at h
  exact Except.noConfusion h

/-- C2 amended: the phases of `warm_cache_for_session` are NOT
try-guarded.  If the fetch of any phase raises, the exception propagates out
of the call (later phases are not attempted and no `CacheStats` is
produced); only when every fetch succeeds does the call return a
`CacheStats` in which `phases_completed` counts all phases (4 in the
direct variant, 3 in the MCP variant) and `items_loaded` is the sum of
the item counts of all phases. -/
theorem c2_amended (threshold : ℚ) (now : Int) (cache : WarmCache)
    (env : WarmPhaseFetches) (envM : WarmPhaseFetchesMCP) :
    (∀ e, env.phase1 = .error e →
      CacheWarmingEngine.warm_cache_for_session threshold now cache env = .error e) ∧
    (∀ l1 e, env.phase1 = .ok l1 → env.phase2 = .error e →
      CacheWarmingEngine.warm_cache_for_session threshold now cache env = .error e) ∧
    (∀ l1 l2 e, env.phase1 = .ok l1 → env.phase2 = .ok l2 → env.phase3 = .error e →
      CacheWarmingEngine.warm_cache_for_session threshold now cache env = .error e) ∧
    (∀ l1 l2 l3 e, env.phase1 = .ok l1 → env.phase2 = .ok l2 → env.phase3 = .ok l3 →
      env.phase4 = .error e →
      CacheWarmingEngine.warm_cache_for_session threshold now cache env = .error e) ∧
    (∀ l1 l2 l3 l4, env.phase1 = .ok l1 → env.phase2 = .ok l2 → env.phase3 = .ok l3 →
      env.phase4 = .ok l4 →
      ∃ c : WarmCache,
        CacheWarmingEngine.warm_cache_for_session threshold now cache env
          = .ok (c, ⟨4, l1.length + l2.length + l3.length + l4.length, c.length⟩)) ∧
    (∀ e, envM.phase1 = .error e →
      CAGCacheWarmerMCP.warm_cache_for_session threshold now cache envM = .error e) ∧
    (∀ l1 l2 l3, envM.phase1 = .ok l1 → envM.phase2 = .ok l2 → envM.phase3 = .ok l3 →
      ∃ c : WarmCache,
        CAGCacheWarmerMCP.warm_cache_for_session threshold now cache envM
          = .ok (c, ⟨3, l1.length + l2.length + l3.length, c.length⟩)) := by
  refine ⟨?_, ?_, ?_, ?_, ?_, ?_, ?_⟩
  · intro e h1
    simp [CacheWarmingEngine.warm_cache_for_session, h1]
  · intro l1 e h1 h2
    simp [CacheWarmingEngine.warm_cache_for_session, h1, h2]
  · intro l1 l2 e h1 h2 h3
    simp [CacheWarmingEngine.warm_cache_for_session, h1, h2, h3]
  · intro l1 l2 l3 e h1 h2 h3 h4
    simp [CacheWarmingEngine.warm_cache_for_session, h1, h2, h3, h4]
  · intro l1 l2 l3 l4 h1 h2 h3 h4
    refine ⟨CacheWarmingEngine.preload_to_context threshold now
      (CacheWarmingEngine.preload_to_context threshold now
        (CacheWarmingEngine.preload_to_context threshold now
          (CacheWarmingEngine.preload_to_context threshold now cache l1) l2) l3) l4, ?_⟩
    simp [CacheWarmingEngine.warm_cache_for_session, h1, h2, h3, h4]
  · intro e h1
    simp [CAGCacheWarmerMCP.warm_cache_for_session, h1]
  · intro l1 l2 l3 h1 h2 h3
    refine ⟨CacheWarmingEngine.preload_to_context threshold now
      (CacheWarmingEngine.preload_to_context threshold now
        (CacheWarmingEngine.preload_to_context threshold now cache l1) l2) l3, ?_⟩
    simp [CAGCacheWarmerMCP.warm_cache_for_session, h1, h2, h3]

/-- Witness for C2 amended: a run in which every phase fetch succeeds
(Phase 1 delivers one item, the rest none) returns `phases_completed =
4` and `items_loaded = 1`. -/
theorem c2_witness :
    ∃ c : WarmCache,
      CacheWarmingEngine.warm_cache_for_session cache_priority_threshold 0 [] c2OkEnv
        = .ok (c, ⟨4, 1, c.length⟩) := by
  obtain ⟨c, hc⟩ :=
    (c2_amended cache_priority_threshold 0 [] c2OkEnv c2OkEnvMCP).2.2.2.2.1
      [warmOkItem] [] [] [] rfl rfl rfl rfl
  exact ⟨c, by simpa using hc⟩

theorem compile_foldl_eq (emit : String → List String) (context : String → String) :
    ∀ (layers : List String) (acc : List String),
      layers.foldl (fun compiled layer =>
        if context layer ≠ "" then compiled ++ emit layer else compiled) acc
      = acc ++ ((layers.filter (fun l => context l ≠ "")).map emit).flatten := by
  intro layers
  induction layers with
  | nil =>
    intro acc
    simp
  | cons l rest ih =>
    intro acc
    by_cases h : context l ≠ ""
    · simp only [List.foldl_cons, if_pos h, List.filter_cons]
      rw [ih]
      simp [h]
    · simp only [List.foldl_cons, if_neg h, List.filter_cons]
      rw [ih]
      simp [h]

/-- Counterexample to C6 as stated: on a context whose only non-empty
layer is `system`, the tool-invocation implementation emits the header
`=== SYSTEM CONTEXT (MCP-INTEGRATED) ===`, not the claimed
`=== SYSTEM CONTEXT ===`. -/
theorem c6_counterexample :
    CAGContextManagerMCP.compile_context c6Ctx ≠ specCompiledContext c6Ctx := by
  decide

/-- C6 amended: both implementations emit, for each non-empty layer in
the fixed canonical order, exactly a header line, the layer body and a
blank line — but the header is `=== <LAYER> CONTEXT ===` only in the
direct-store implementation; the tool-invocation implementation writes
`=== <LAYER> CONTEXT (MCP-INTEGRATED) ===` instead. -/
theorem c6_amended (context : String → String) :
    CAGContextManager.compile_context context = specCompiledContext context ∧
    CAGContextManagerMCP.compile_context context = specCompiledContextMCP context := by
  constructor
  · rw [CAGContextManager.compile_context, specCompiledContext]
    rw [compile_foldl_eq
      (fun layer => ["=== " ++ layerUpper layer ++ " CONTEXT ===", context layer, ""])
      context contextLayerOrder []]
    simp [specHeaderLine]
  · rw [CAGContextManagerMCP.compile_context, specCompiledContextMCP]
    rw [compile_foldl_eq
      (fun layer => ["=== " ++ layerUpper layer ++ " CONTEXT (MCP-INTEGRATED) ===",
        context layer, ""])
      context contextLayerOrder []]
    simp [specHeaderLineMCP]

/-- C7, settled against the code: `count_tokens` multiplies the
whitespace word count by 1.3 and returns the product unrounded (the
`-> int` annotation notwithstanding): on `"a b c"` both
implementations return 3.9 — not the integer `round(3 · 1.3) = 4`, and
not an integer at all. -/
theorem c7_count_tokens_not_rounded :
    CAGContextManager.count_tokens "a b c" = 39/10 ∧
    CAGContextManagerMCP.count_tokens "a b c" = 39/10 ∧
    round (CAGContextManager.count_tokens "a b c") = (4 : ℤ) ∧
    ∀ n : ℤ, CAGContextManager.count_tokens "a b c" ≠ (n : ℚ) := by
  have hwc : pyWordCount "a b c" = 3 := by decide
  have h1 : CAGContextManager.count_tokens "a b c" = 39/10 := by
    rw [CAGContextManager.count_tokens, hwc]
    norm_num
  have h2 : CAGContextManagerMCP.count_tokens "a b c" = 39/10 := by
    rw [CAGContextManagerMCP.count_tokens, hwc]
    norm_num
  refine ⟨h1, h2, ?_, ?_⟩
  · rw [h1]
    norm_num [round_eq]
  · intro n h
    rw [h1] at h
    have h10 : (39 : ℚ) = (n : ℚ) * 10 := by
      field_simp at h
      linarith
    have h39 : (39 : ℤ) = n * 10 := by exact_mod_cast h10
    omega

/-- Witness for C7: the concrete non-integrality at `n = 4`. -/
theorem c7_witness : CAGContextManager.count_tokens "a b c" ≠ ((4 : ℤ) : ℚ) :=
  c7_count_tokens_not_rounded.2.2.2 4

/-- Counterexample to C8 as stated: `get_cached_knowledge` truncates to
`limit` entries (default 10 at the call sites).  On a cache holding
eleven `domain` entries, the returned list cannot contain them all: the
claimed "no entry of that layer is omitted" fails. -/
theorem c8_counterexample :
    ¬ (∀ kv : String × CacheEntry,
        kv ∈ CacheWarmingEngine.get_cached_knowledge c8Cache "domain" 10 ↔
          kv ∈ c8Cache ∧ pyStartsWith kv.1 ("domain" ++ ":") = true) := by
  intro H
  have hsub : c8Cache ⊆ CacheWarmingEngine.get_cached_knowledge c8Cache "domain" 10 := by
    intro kv hkv
    refine (H kv).mpr ⟨hkv, ?_⟩
    simp only [c8Cache, List.mem_cons, List.not_mem_nil, or_false] at hkv
    rcases hkv with h | h | h | h | h | h | h | h | h | h | h <;> rw [h] <;> decide
  have hmapnodup : (c8Cache.map Prod.fst).Nodup := by decide
  have hnodup : c8Cache.Nodup := List.Nodup.of_map Prod.fst hmapnodup
  have hlen : (CacheWarmingEngine.get_cached_knowledge c8Cache "domain" 10).length ≤ 10 := by
    simp only [CacheWarmingEngine.get_cached_knowledge]
    exact List.length_take_le 10 _
  have hle := (List.subperm_of_subset hnodup hsub).length_le
  have hc : c8Cache.length = 11 := rfl
  rw [hc] at hle
  omega

/-- C8 amended: `get_cached_knowledge(layer=L)` returns only entries
whose key begins with `"L:"` (no foreign entries), sorted by priority
and truncated to `limit`; the returned set is EXACTLY the full layer
subset precisely when that subset has at most `limit` entries —
beyond the limit, entries of the layer are omitted. -/
theorem c8_amended (cache : WarmCache) (layer : String) (limit : Nat)
    (kv : String × CacheEntry) :
    (kv ∈ CacheWarmingEngine.get_cached_knowledge cache layer limit →
      kv ∈ cache ∧ pyStartsWith kv.1 (layer ++ ":") = true) ∧
    ((cache.filter (fun p => pyStartsWith p.1 (layer ++ ":"))).length ≤ limit →
      (kv ∈ CacheWarmingEngine.get_cached_knowledge cache layer limit ↔
        kv ∈ cache ∧ pyStartsWith kv.1 (layer ++ ":") = true)) := by
  have sound : kv ∈ CacheWarmingEngine.get_cached_knowledge cache layer limit →
      kv ∈ cache ∧ pyStartsWith kv.1 (layer ++ ":") = true := by
    intro h
    simp only [CacheWarmingEngine.get_cached_knowledge] at h
    have h2 := List.mem_of_mem_take h
    rw [List.mem_mergeSort] at h2
    exact List.mem_filter.mp h2
  refine ⟨sound, fun hlen => ⟨sound, fun hmem => ?_⟩⟩
  simp only [CacheWarmingEngine.get_cached_knowledge]
  have hlen2 : ((cache.filter (fun p => pyStartsWith p.1 (layer ++ ":"))).mergeSort
      (fun a b => decide (b.2.priority ≤ a.2.priority))).length ≤ limit := by
    rw [List.length_mergeSort]
    exact hlen
  rw [List.take_of_length_le hlen2, List.mem_mergeSort]
  exact List.mem_filter.mpr hmem

/-- Witness for C8 amended: on a one-entry `domain` cache (below the
limit) the entry is returned. -/
theorem c8_witness :
    ("domain:a", c8Entry 1) ∈
      CacheWarmingEngine.get_cached_knowledge c8SmallCache "domain" 10 :=
  ((c8_amended c8SmallCache "domain" 10 ("domain:a", c8Entry 1)).2 (by decide)).mpr
    ⟨List.mem_singleton.mpr rfl, by decide⟩
